import Mathlib

/-!
Shallow embedding of the `eco` Django front-end (files `eco/services.py`,
`eco/views.py`, `eco/urls.py`) for verification of its specification.

JSON payloads are modelled by an inductive `Json` type (numbers restricted to
integers, which covers every payload the views manipulate).  A Django session
is a pair of optional JSON values for the two keys the code uses
(`auth_token`, `user_data`); `some Json.null` models a key that is present but
bound to Python `None`, while `none` models an absent key — both are falsy.

The network is made explicit: each outbound call's result is an input of the
embedded function.  `GetOutcome`/`PostOutcome` describe what `requests.get` /
`requests.post` produced: either a transport-level failure (any
`requests.RequestException`: timeout, connection error, and, for GET, the
`HTTPError` raised by `raise_for_status`) or a received response with a status
code and a decoded JSON body.  View handlers take the outcome of each upstream
call as a parameter and return a `ViewResp`: the selected outcome (render /
redirect / uncaught exception), the flash messages emitted during the request,
and the session as left afterwards.
-/

namespace Eco

/-- JSON values as the views manipulate them (numbers restricted to the
integers that appear in the API payloads). -/
inductive Json where
  | null : Json
  | bool (b : Bool) : Json
  | num (n : Int) : Json
  | str (s : String) : Json
  | arr (elems : List Json) : Json
  | obj (fields : List (String × Json)) : Json

/-- Python truthiness of a JSON value (`None`, `False`, `0`, `''`, `[]`, `{}`
are falsy, everything else truthy). -/
def pyTruthy : Json → Bool
  | .null => false
  | .bool b => b
  | .num n => n != 0
  | .str s => s != ""
  | .arr l => !l.isEmpty
  | .obj kvs => !kvs.isEmpty

mutual

/-- Python `str()` of a JSON value (used by f-strings and by
`str(response.json())` in `register_view`). -/
def pyStr : Json → String
  | .null => "None"
  | .bool true => "True"
  | .bool false => "False"
  | .num n => toString n
  | .str s => s
  | .arr l => "[" ++ pyReprList l ++ "]"
  | .obj kvs => "\x7b" ++ pyReprFields kvs ++ "\x7d"

/-- Python `repr()` of a JSON value (elements of containers are shown with
`repr`, so strings are quoted). -/
def pyRepr : Json → String
  | .null => "None"
  | .bool true => "True"
  | .bool false => "False"
  | .num n => toString n
  | .str s => "\x27" ++ s ++ "\x27"
  | .arr l => "[" ++ pyReprList l ++ "]"
  | .obj kvs => "\x7b" ++ pyReprFields kvs ++ "\x7d"

/-- Comma-separated `repr`s of the elements of a list. -/
def pyReprList : List Json → String
  | [] => ""
  | [x] => pyRepr x
  | x :: xs => pyRepr x ++ ", " ++ pyReprList xs

/-- Comma-separated `key: value` pairs of a dict, with `repr`ed components. -/
def pyReprFields : List (String × Json) → String
  | [] => ""
  | [(k, v)] => "\x27" ++ k ++ "\x27: " ++ pyRepr v
  | (k, v) :: kvs => "\x27" ++ k ++ "\x27: " ++ pyRepr v ++ ", " ++ pyReprFields kvs

end

/-- The Django session, restricted to the two keys this app reads or writes.
`none` = key absent; `some Json.null` = key present bound to Python `None`. -/
structure Session where
  authToken : Option Json
  userData : Option Json

/-- Truthiness of `request.session.get('auth_token')`: the guard every view
uses as its authentication test. -/
def truthyAuth (sess : Session) : Bool :=
  match sess.authToken with
  | some t => pyTruthy t
  | none => false

/-- Context value for `request.session.get('user_data')` (Python `None` when
absent). -/
def userCtx (sess : Session) : Json :=
  match sess.userData with
  | some u => u
  | none => Json.null

/-- What `requests.get` produced for one call: a transport failure
(`requests.RequestException`, covering timeout and connection errors) or a
received response with its status code and decoded JSON body. -/
inductive GetOutcome where
  | transportFail : GetOutcome
  | response (status : Nat) (body : Json) : GetOutcome

/-- A received HTTP response as `requests` hands it to the caller of
`api_post`: status code plus decoded JSON body (`response.json()`). -/
structure Response where
  status : Nat
  body : Json

/-- What `requests.post` produced for one call. -/
inductive PostOutcome where
  | transportFail : PostOutcome
  | response (r : Response) : PostOutcome

/-- Truthiness of a `requests.Response` object: `Response.__bool__` returns
`self.ok`, which is `False` exactly when `raise_for_status` would raise,
i.e. when `400 <= status_code < 600`. -/
def pyTruthyResp (r : Response) : Bool :=
  !(400 ≤ r.status && r.status < 600)

/-- `services.api_get`: `raise_for_status` raises `HTTPError` (a
`RequestException`) exactly for status codes in `[400, 600)`; that and any
transport failure are caught and collapsed to `None`; otherwise the decoded
JSON body is returned. -/
def api_get (out : GetOutcome) : Option Json :=
  match out with
  | .transportFail => none
  | .response status body =>
      if 400 ≤ status && status < 600 then none else some body

/-- `services.api_post`: the raw response object is returned for every
received response; only a transport failure yields `None`. -/
def api_post (out : PostOutcome) : Option Response :=
  match out with
  | .transportFail => none
  | .response r => some r

/-- `services.get_headers`: always a JSON content type; an
`Authorization: Token {token}` entry exactly when the session's `auth_token`
is truthy (the `if token:` guard). -/
def get_headers (sess : Session) : List (String × String) :=
  match sess.authToken with
  | some t =>
      if pyTruthy t then
        [("Content-Type", "application/json"),
         ("Authorization", "Token " ++ pyStr t)]
      else
        [("Content-Type", "application/json")]
  | none => [("Content-Type", "application/json")]

/-- The headers `api_get` sends: `get_headers(request) if request else {}` —
with no request context the header dict is empty. -/
def api_get_headers (osess : Option Session) : List (String × String) :=
  match osess with
  | some sess => get_headers sess
  | none => []

/-- The headers `api_post` sends:
`get_headers(request) if request else {'Content-Type': 'application/json'}`. -/
def api_post_headers (osess : Option Session) : List (String × String) :=
  match osess with
  | some sess => get_headers sess
  | none => [("Content-Type", "application/json")]

/-- A flash message queued by `django.contrib.messages` during one request. -/
structure Flash where
  level : String
  text : String

/-- What a view invocation resolves to: a rendered template with its context
(JSON-encodable context values; a bound form is encoded as an object of its
submitted field values, an unbound form as `null`), a redirect to a named URL
pattern with its positional arguments, or an uncaught Python exception
propagating past the handler (`KeyError` / `TypeError` / `AttributeError`). -/
inductive VOutcome where
  | render (template : String) (ctx : List (String × Json)) : VOutcome
  | redirect (target : String) (args : List Nat) : VOutcome
  | raise : VOutcome

/-- Result of one view invocation: outcome, flash messages emitted during the
request, and the session as left afterwards. -/
structure ViewResp where
  outcome : VOutcome
  flashes : List Flash
  sess : Session

/-- Modelled from the spec: `LoginForm` lives in `eco/forms.py`, which is not
among the sources; per the spec it "requires non-empty `username` and
`password` (as plain strings, no length/format constraint beyond
non-empty)". -/
def loginFormValid (username password : String) : Bool :=
  username != "" && password != ""

/-- Modelled from the spec: `RegisterForm` lives in `eco/forms.py`, which is
not among the sources; per the spec it "requires non-empty `username`,
non-empty `password`, and `email` matching a standard email-address
format" (the format test is abstracted to the presence of an `@`). -/
def registerFormValid (username email password : String) : Bool :=
  username != "" && password != "" && email.contains '@'

/-- `views.index`: fetch `local/`; a `None` result flashes a connection error
and is replaced by `[]`; render `index.html` with the books and the session
user. -/
def index (sess : Session) (booksOut : GetOutcome) : ViewResp :=
  match api_get booksOut with
  | none =>
      { outcome := .render "index.html"
          [("books", Json.arr []), ("user", userCtx sess)],
        flashes := [⟨"error", "No se pudo conectar con el catálogo de libros."⟩],
        sess := sess }
  | some books =>
      { outcome := .render "index.html"
          [("books", books), ("user", userCtx sess)],
        flashes := [],
        sess := sess }

/-- `views.login_view`.  `method` is `request.method`; `username`/`password`
are the submitted form fields; `postOut` is what the upstream
`api_post('login/', ...)` call would produce if made.  Mirrors the source:
truthy `auth_token` redirects to index; a POST with a valid form posts the
credentials; `if response and response.status_code == 200` stores
`data.get('token')` (Python `None` when the key is absent) and the username
in the session, flashes success and redirects; otherwise flashes
"Usuario o contraseña incorrectos." and falls through to the render. -/
def login_view (sess : Session) (method : String) (username password : String)
    (postOut : PostOutcome) : ViewResp :=
  if truthyAuth sess then
    { outcome := .redirect "index" [], flashes := [], sess := sess }
  else
    let formJson : Json :=
      if method == "POST" then
        Json.obj [("username", .str username), ("password", .str password)]
      else Json.null
    if method == "POST" && loginFormValid username password then
      match api_post postOut with
      | some r =>
          if pyTruthyResp r && r.status == 200 then
            match r.body with
            | .obj kvs =>
                let token := (List.lookup "token" kvs).getD Json.null
                { outcome := .redirect "index" [],
                  flashes := [⟨"success", "¡Sesión iniciada correctamente!"⟩],
                  sess :=
                    { authToken := some token,
                      userData :=
                        some (.obj [("username", .str username)]) } }
            | _ => { outcome := .raise, flashes := [], sess := sess }
          else
            { outcome := .render "login.html" [("form", formJson)],
              flashes := [⟨"error", "Usuario o contraseña incorrectos."⟩],
              sess := sess }
      | none =>
          { outcome := .render "login.html" [("form", formJson)],
            flashes := [⟨"error", "Usuario o contraseña incorrectos."⟩],
            sess := sess }
    else
      { outcome := .render "login.html" [("form", formJson)],
        flashes := [], sess := sess }

/-- `views.register_view`.  Truthy `auth_token` redirects to index; a POST
with a valid form posts the fields; `if response and response.status_code ==
201` flashes success and redirects to login; otherwise the error message is
`str(response.json())` when the response object is truthy (status outside
`[400, 600)`) and the generic "Error al registrar usuario." otherwise, and
the form is re-rendered. -/
def register_view (sess : Session) (method : String)
    (username email password : String) (postOut : PostOutcome) : ViewResp :=
  if truthyAuth sess then
    { outcome := .redirect "index" [], flashes := [], sess := sess }
  else
    let formJson : Json :=
      if method == "POST" then
        Json.obj [("username", .str username), ("email", .str email),
                  ("password", .str password)]
      else Json.null
    if method == "POST" && registerFormValid username email password then
      match api_post postOut with
      | some r =>
          if pyTruthyResp r && r.status == 201 then
            { outcome := .redirect "login" [],
              flashes :=
                [⟨"success", "Cuenta creada con éxito. Por favor inicia sesión."⟩],
              sess := sess }
          else
            { outcome := .render "register.html" [("form", formJson)],
              flashes :=
                [⟨"error",
                  if pyTruthyResp r then pyStr r.body
                  else "Error al registrar usuario."⟩],
              sess := sess }
      | none =>
          { outcome := .render "register.html" [("form", formJson)],
            flashes := [⟨"error", "Error al registrar usuario."⟩],
            sess := sess }
    else
      { outcome := .render "register.html" [("form", formJson)],
        flashes := [], sess := sess }

/-- `views.logout_view`: `session.flush()` empties the session; info flash;
redirect to index. -/
def logout_view (sess : Session) : ViewResp :=
  let _ := sess
  { outcome := .redirect "index" [],
    flashes := [⟨"info", "Has cerrado sesión correctamente."⟩],
    sess := { authToken := none, userData := none } }

/-- Python `==` between a JSON value and the integer `int(book_id)`:
numerals compare numerically, booleans coerce (`True == 1`), every other
type compares unequal without raising. -/
def pyEqNum (v : Json) (n : Int) : Bool :=
  match v with
  | .num m => m == n
  | .bool b => (bif b then (1 : Int) else 0) == n
  | _ => false

/-- One step of `f['id'] == int(book_id)` for an element `f` of the favorites
list: `Except` error models the uncaught Python exception (`KeyError` when a
dict lacks `'id'`, `TypeError` when `f` is not a dict). -/
def favIdMatches (bookId : Int) (f : Json) : Except Unit Bool :=
  match f with
  | .obj kvs =>
      match List.lookup "id" kvs with
      | some v => .ok (pyEqNum v bookId)
      | none => .error ()
  | _ => .error ()

/-- `any(f['id'] == int(book_id) for f in my_favs)`: a short-circuiting scan
that stops at the first match and propagates the exception of the first
failing element reached. -/
def favAny (bookId : Int) : List Json → Except Unit Bool
  | [] => .ok false
  | f :: rest =>
      match favIdMatches bookId f with
      | .ok true => .ok true
      | .ok false => favAny bookId rest
      | .error e => .error e

/-- The favorite-membership computation of `views.book_detail` applied to the
truthy value `my_favs`: iterating a truthy non-list JSON value eventually
applies `['id']` to a non-dict element (dict iteration yields string keys,
string iteration yields characters, numbers and booleans are not iterable),
so every truthy non-array raises. -/
def favMembership (bookId : Int) (favs : Json) : Except Unit Bool :=
  match favs with
  | .arr l => favAny bookId l
  | _ => .error ()

/-- An element of a favorites list that is a dict carrying an `'id'` key —
the shape on which the membership scan of `book_detail` cannot raise. -/
def hasIdKey (f : Json) : Bool :=
  match f with
  | .obj kvs => (List.lookup "id" kvs).isSome
  | _ => false

/-- Whether one favorites element matches the current book:
`f['id'] == int(book_id)` on an element where the access succeeds. -/
def favHit (bookId : Int) (f : Json) : Bool :=
  match f with
  | .obj kvs =>
      match List.lookup "id" kvs with
      | some v => pyEqNum v bookId
      | none => false
  | _ => false

/-- `views.book_detail`.  `bookOut` / `favsOut` are the outcomes of the two
upstream GETs (`local/{id}/`, then `local/my_favorites/`; the second call is
only made when the session holds a truthy `auth_token`).  A falsy book
flashes "Libro no encontrado." and redirects to index; otherwise
`is_favorite` starts `False`, and when authenticated and `my_favs` is truthy
it is the result of the membership scan (whose exception propagates
uncaught). -/
def book_detail (sess : Session) (book_id : Nat)
    (bookOut favsOut : GetOutcome) : ViewResp :=
  let book := (api_get bookOut).getD Json.null
  if !pyTruthy book then
    { outcome := .redirect "index" [],
      flashes := [⟨"error", "Libro no encontrado."⟩],
      sess := sess }
  else
    let favsStep : Except Unit Bool :=
      if truthyAuth sess then
        let my_favs := (api_get favsOut).getD Json.null
        if pyTruthy my_favs then favMembership (book_id : Int) my_favs
        else .ok false
      else .ok false
    match favsStep with
    | .error _ => { outcome := .raise, flashes := [], sess := sess }
    | .ok is_favorite =>
        { outcome := .render "book_detail.html"
            [("book", book), ("is_favorite", .bool is_favorite),
             ("user", userCtx sess)],
          flashes := [],
          sess := sess }

/-- `views.favorites_view`: unauthenticated callers are redirected to login
with a warning; a `None` favorites result flashes "Error al cargar
favoritos." and is replaced by `[]`; render `favorites.html`. -/
def favorites_view (sess : Session) (favsOut : GetOutcome) : ViewResp :=
  if !truthyAuth sess then
    { outcome := .redirect "login" [],
      flashes := [⟨"warning", "Debes iniciar sesión para ver tus favoritos."⟩],
      sess := sess }
  else
    match api_get favsOut with
    | none =>
        { outcome := .render "favorites.html"
            [("books", Json.arr []), ("user", userCtx sess)],
          flashes := [⟨"error", "Error al cargar favoritos."⟩],
          sess := sess }
    | some books =>
        { outcome := .render "favorites.html"
            [("books", books), ("user", userCtx sess)],
          flashes := [],
          sess := sess }

/-- `views.toggle_favorite`.  Unauthenticated callers are redirected to login
with a warning.  Otherwise `if response and response.status_code in
[200, 201]` flashes `data.get('message', 'Acción realizada')` as a success
(raising `AttributeError` if the body is not a dict); any other outcome
flashes "No se pudo actualizar favoritos."; both branches redirect to
`book_detail(book_id)`. -/
def toggle_favorite (sess : Session) (book_id : Nat)
    (postOut : PostOutcome) : ViewResp :=
  if !truthyAuth sess then
    { outcome := .redirect "login" [],
      flashes := [⟨"warning", "Inicia sesión para guardar favoritos."⟩],
      sess := sess }
  else
    match api_post postOut with
    | some r =>
        if pyTruthyResp r && (r.status == 200 || r.status == 201) then
          match r.body with
          | .obj kvs =>
              let msg := (List.lookup "message" kvs).getD (.str "Acción realizada")
              { outcome := .redirect "book_detail" [book_id],
                flashes := [⟨"success", pyStr msg⟩],
                sess := sess }
          | _ => { outcome := .raise, flashes := [], sess := sess }
        else
          { outcome := .redirect "book_detail" [book_id],
            flashes := [⟨"error", "No se pudo actualizar favoritos."⟩],
            sess := sess }
    | none =>
        { outcome := .redirect "book_detail" [book_id],
          flashes := [⟨"error", "No se pudo actualizar favoritos."⟩],
          sess := sess }

/-- C1: a POST to `/login/` while unauthenticated, with a valid form, where
the upstream POST returns status 200 with a `token` field in its body, stores
that token in `auth_token`, stores the submitted username in
`user_data.username`, flashes success, and redirects to the index page. -/
theorem login_post_200_with_token (sess : Session) (u p : String)
    (postOut : PostOutcome) (r : Response) (kvs : List (String × Json))
    (tok : Json)
    (hAuth : truthyAuth sess = false)
    (hForm : loginFormValid u p = true)
    (hResp : api_post postOut = some r)
    (hStatus : r.status = 200)
    (hBody : r.body = Json.obj kvs)
    (hTok : List.lookup "token" kvs = some tok) :
    login_view sess "POST" u p postOut =
      { outcome := .redirect "index" [],
        flashes := [⟨"success", "¡Sesión iniciada correctamente!"⟩],
        sess := { authToken := some tok,
                  userData := some (.obj [("username", Json.str u)]) } } := by
  cases postOut with
  | transportFail => simp [api_post] at hResp
  | response r0 =>
      simp only [api_post, Option.some.injEq] at hResp
      subst hResp
      simp [login_view, hAuth, hForm, api_post, hBody, hTok, pyTruthyResp,
        hStatus]

/-- Concrete instance of `login_post_200_with_token`. -/
theorem login_post_200_with_token_witness :
    login_view ⟨none, none⟩ "POST" "alice" "pw"
      (.response ⟨200, Json.obj [("token", Json.str "t123")]⟩) =
      { outcome := .redirect "index" [],
        flashes := [⟨"success", "¡Sesión iniciada correctamente!"⟩],
        sess := { authToken := some (Json.str "t123"),
                  userData :=
                    some (.obj [("username", Json.str "alice")]) } } :=
  login_post_200_with_token ⟨none, none⟩ "alice" "pw"
    (.response ⟨200, Json.obj [("token", Json.str "t123")]⟩)
    ⟨200, Json.obj [("token", Json.str "t123")]⟩
    [("token", Json.str "t123")] (Json.str "t123")
    rfl (by decide) rfl rfl rfl rfl

/-- C2: evaluation at the failing input.  A POST to `/login/` while
unauthenticated with a valid form, where the upstream returns 200 with a body
lacking a `token` field, does NOT flash an error or re-render: the code
stores Python `None` (`data.get('token')`) as `auth_token`, stores the
username, flashes success, and redirects to index — contradicting the claim
(and the repository's own test, which expects a 200 re-render with an
"Error al procesar" message). -/
theorem login_post_200_without_token_behavior :
    login_view ⟨none, none⟩ "POST" "alice" "pw"
      (.response ⟨200, Json.obj [("detail", Json.str "ok")]⟩) =
      { outcome := .redirect "index" [],
        flashes := [⟨"success", "¡Sesión iniciada correctamente!"⟩],
        sess := { authToken := some Json.null,
                  userData :=
                    some (.obj [("username", Json.str "alice")]) } } := rfl

/-- C3 counterexample: status 300 is not a 2xx status, yet `api_get` returns
the decoded body rather than the absent sentinel, because
`raise_for_status` raises only for status codes in `[400, 600)`. -/
theorem api_get_non2xx_counterexample :
    api_get (.response 300 (Json.obj [("a", Json.num 1)])) =
        some (Json.obj [("a", Json.num 1)])
      ∧ ¬(200 ≤ 300 ∧ 300 ≤ 299) := ⟨rfl, by decide⟩

/-- C3 amended: `api_get` returns the absent sentinel exactly on transport
failure or a received status in `[400, 600)` (the range where
`raise_for_status` raises), and returns the decoded body otherwise;
`api_post` returns the raw response for every received response and the
absent sentinel exactly on transport failure. -/
theorem api_get_api_post_characterization :
    api_get .transportFail = none
    ∧ (∀ (s : Nat) (b : Json),
        api_get (.response s b) = none ↔ (400 ≤ s ∧ s < 600))
    ∧ (∀ (s : Nat) (b : Json), ¬(400 ≤ s ∧ s < 600) →
        api_get (.response s b) = some b)
    ∧ (∀ r : Response, api_post (.response r) = some r)
    ∧ api_post .transportFail = none := by
  refine ⟨rfl, ?_, ?_, fun r => rfl, rfl⟩
  · intro s b
    by_cases h : 400 ≤ s ∧ s < 600
    · simp only [api_get]
      rw [if_pos (by simpa using h)]
      simp [h]
    · simp only [api_get]
      rw [if_neg (by simpa using h)]
      simp [h]
  · intro s b h
    simp only [api_get]
    rw [if_neg (by simpa using h)]

/-- Concrete instance of `api_get_api_post_characterization`. -/
theorem api_get_api_post_characterization_witness :
    api_get (.response 200 (Json.arr [])) = some (Json.arr []) :=
  api_get_api_post_characterization.2.2.1 200 (Json.arr []) (by decide)

/-- C4 counterexample: a GET issued without a session context carries no
headers at all — in particular no JSON content-type header
(`get_headers(request) if request else {}`). -/
theorem api_get_headers_counterexample :
    List.lookup "Content-Type" (api_get_headers none) = none ∧
      api_get_headers none = [] := ⟨rfl, rfl⟩

/-- C4 amended: every `api_post` request carries the JSON content-type
header, and an `api_get` request carries it exactly when a session context is
supplied; both carry `Authorization: Token {token}` exactly when a session
context is supplied whose `auth_token` is a truthy token. -/
theorem get_headers_of_truthy (sess : Session) (t : Json)
    (h : sess.authToken = some t) (ht : pyTruthy t = true) :
    get_headers sess =
      [("Content-Type", "application/json"),
       ("Authorization", "Token " ++ pyStr t)] := by
  unfold get_headers
  rw [h]
  simp [ht]

theorem get_headers_of_falsy (sess : Session)
    (h : truthyAuth sess = false) :
    get_headers sess = [("Content-Type", "application/json")] := by
  unfold get_headers
  unfold truthyAuth at h
  cases hA : sess.authToken with
  | none => rfl
  | some t =>
      rw [hA] at h
      simp only [] at h
      simp [h]

theorem headers_characterization :
    (∀ osess, List.lookup "Content-Type" (api_post_headers osess) =
        some "application/json")
    ∧ (∀ sess, List.lookup "Content-Type" (api_get_headers (some sess)) =
        some "application/json")
    ∧ api_get_headers none = []
    ∧ (∀ (sess : Session) (t : Json), sess.authToken = some t →
        pyTruthy t = true →
        List.lookup "Authorization" (api_get_headers (some sess)) =
            some ("Token " ++ pyStr t)
        ∧ List.lookup "Authorization" (api_post_headers (some sess)) =
            some ("Token " ++ pyStr t))
    ∧ (∀ sess : Session, truthyAuth sess = false →
        List.lookup "Authorization" (api_get_headers (some sess)) = none
        ∧ List.lookup "Authorization" (api_post_headers (some sess)) = none)
    ∧ List.lookup "Authorization" (api_get_headers none) = none
    ∧ List.lookup "Authorization" (api_post_headers none) = none := by
  have hCT : ∀ sess : Session,
      List.lookup "Content-Type" (get_headers sess) =
        some "application/json" := by
    intro sess
    cases hA : sess.authToken with
    | none =>
        unfold get_headers
        rw [hA]
        rfl
    | some t =>
        by_cases ht : pyTruthy t = true
        · rw [get_headers_of_truthy sess t hA ht]
          rfl
        · rw [get_headers_of_falsy sess
            (by unfold truthyAuth; rw [hA]; simpa using ht)]
          rfl
  refine ⟨?_, fun sess => hCT sess, rfl, ?_, ?_, rfl, rfl⟩
  · intro osess
    cases osess with
    | none => rfl
    | some sess => exact hCT sess
  · intro sess t hTok hTruthy
    constructor
    · show List.lookup "Authorization" (get_headers sess) = _
      rw [get_headers_of_truthy sess t hTok hTruthy]
      rfl
    · show List.lookup "Authorization" (get_headers sess) = _
      rw [get_headers_of_truthy sess t hTok hTruthy]
      rfl
  · intro sess hFalse
    constructor
    · show List.lookup "Authorization" (get_headers sess) = _
      rw [get_headers_of_falsy sess hFalse]
      rfl
    · show List.lookup "Authorization" (get_headers sess) = _
      rw [get_headers_of_falsy sess hFalse]
      rfl

/-- Concrete instance of `headers_characterization`. -/
theorem headers_characterization_witness :
    List.lookup "Authorization"
        (api_get_headers (some ⟨some (Json.str "abc"), none⟩)) =
      some "Token abc" :=
  (headers_characterization.2.2.2.1 ⟨some (Json.str "abc"), none⟩
    (Json.str "abc") rfl (by decide)).1

/-- C5 counterexample: a session whose `auth_token` key is present but bound
to Python `None` (the state the login handler itself produces when the
upstream 200 body lacks a `token` field) does contain `auth_token`, yet a GET
of `/login/` renders the login form instead of redirecting to the index —
the guard tests truthiness, not presence. -/
theorem authed_redirect_counterexample :
    (login_view ⟨some Json.null, none⟩ "GET" "" "" .transportFail).outcome =
        VOutcome.render "login.html" [("form", Json.null)]
    ∧ (login_view ⟨some Json.null, none⟩ "GET" "" "" .transportFail).outcome ≠
        VOutcome.redirect "index" [] :=
  ⟨rfl, fun h => VOutcome.noConfusion h⟩

/-- C5 amended: every request to `/login/` or `/register/` made while the
session contains a truthy `auth_token` (present and neither `None` nor empty)
is answered with a redirect to the index page, with no flash and the session
unchanged, regardless of method and body. -/
theorem authed_login_register_redirect (sess : Session)
    (methodL methodR uL pL uR eR pR : String) (poL poR : PostOutcome)
    (h : truthyAuth sess = true) :
    login_view sess methodL uL pL poL =
        { outcome := .redirect "index" [], flashes := [], sess := sess }
    ∧ register_view sess methodR uR eR pR poR =
        { outcome := .redirect "index" [], flashes := [], sess := sess } :=
  ⟨by simp [login_view, h], by simp [register_view, h]⟩

/-- Concrete instance of `authed_login_register_redirect`. -/
theorem authed_login_register_redirect_witness :
    login_view ⟨some (Json.str "tok"), none⟩ "POST" "u" "p" .transportFail =
        { outcome := .redirect "index" [], flashes := [],
          sess := ⟨some (Json.str "tok"), none⟩ }
    ∧ register_view ⟨some (Json.str "tok"), none⟩ "GET" "" "" ""
          .transportFail =
        { outcome := .redirect "index" [], flashes := [],
          sess := ⟨some (Json.str "tok"), none⟩ } :=
  authed_login_register_redirect ⟨some (Json.str "tok"), none⟩
    "POST" "GET" "u" "p" "" "" "" .transportFail .transportFail (by decide)

/-- The short-circuiting membership scan never raises on a list whose
elements are all dicts carrying an `'id'` key, and then computes exactly
`List.any` of the per-element match. -/
theorem favAny_of_hasIdKey (bid : Int) (l : List Json)
    (hAll : ∀ f ∈ l, hasIdKey f = true) :
    favAny bid l = .ok (l.any (favHit bid)) := by
  induction l with
  | nil => rfl
  | cons f rest ih =>
      have hf : hasIdKey f = true := hAll f (List.mem_cons_self f rest)
      have hrest : ∀ g ∈ rest, hasIdKey g = true :=
        fun g hg => hAll g (List.mem_cons_of_mem f hg)
      cases f with
      | obj kvs =>
          simp only [hasIdKey] at hf
          cases hLk : List.lookup "id" kvs with
          | none => rw [hLk] at hf; simp at hf
          | some v =>
              by_cases hm : pyEqNum v bid = true
              · simp [favAny, favIdMatches, hLk, hm, favHit]
              · simp only [Bool.not_eq_true] at hm
                simp [favAny, favIdMatches, hLk, hm, favHit, ih hrest]
      | null => simp [hasIdKey] at hf
      | bool b => simp [hasIdKey] at hf
      | num n => simp [hasIdKey] at hf
      | str s => simp [hasIdKey] at hf
      | arr elems => simp [hasIdKey] at hf

/-- C6: for a GET of `/book/{id}/` while authenticated where the book fetch
yields a truthy book, (a) an absent favorites result renders the page with
`is_favorite = False` (fail-open, no error flash), and (b) a fetched
favorites list whose elements all carry an `id` key renders the page with
`is_favorite` true exactly when some element's `id` equals the path id. -/
theorem book_detail_is_favorite (sess : Session) (book_id : Nat)
    (bookOut favsOut : GetOutcome) (book : Json) (favs : List Json)
    (hAuth : truthyAuth sess = true)
    (hBook : api_get bookOut = some book)
    (hTruthy : pyTruthy book = true) :
    (api_get favsOut = none →
        book_detail sess book_id bookOut favsOut =
          { outcome := .render "book_detail.html"
              [("book", book), ("is_favorite", .bool false),
               ("user", userCtx sess)],
            flashes := [], sess := sess })
    ∧ (api_get favsOut = some (.arr favs) →
        (∀ f ∈ favs, hasIdKey f = true) →
        book_detail sess book_id bookOut favsOut =
          { outcome := .render "book_detail.html"
              [("book", book),
               ("is_favorite",
                 .bool (favs.any (favHit (book_id : Int)))),
               ("user", userCtx sess)],
            flashes := [], sess := sess }
        ∧ (favs.any (favHit (book_id : Int)) = true ↔
            ∃ f ∈ favs, favHit (book_id : Int) f = true)) := by
  have hNull : pyTruthy Json.null = false := rfl
  constructor
  · intro hFavs
    simp [book_detail, hBook, hTruthy, hAuth, hFavs, hNull]
  · intro hFavs hAll
    refine ⟨?_, by simp⟩
    cases favs with
    | nil =>
        have hEmpty : pyTruthy (Json.arr []) = false := rfl
        simp [book_detail, hBook, hTruthy, hAuth, hFavs, hEmpty]
    | cons f rest =>
        have hNonEmpty : pyTruthy (Json.arr (f :: rest)) = true := rfl
        simp [book_detail, hBook, hTruthy, hAuth, hFavs, hNonEmpty,
          favMembership, favAny_of_hasIdKey (book_id : Int) (f :: rest) hAll]

/-- Concrete instance of `book_detail_is_favorite`: the favorite is found. -/
theorem book_detail_is_favorite_witness :
    book_detail ⟨some (Json.str "t"), none⟩ 1
        (.response 200 (Json.obj [("id", Json.num 1), ("title", Json.str "A")]))
        (.response 200 (Json.arr [Json.obj [("id", Json.num 1)]])) =
      { outcome := .render "book_detail.html"
          [("book", Json.obj [("id", Json.num 1), ("title", Json.str "A")]),
           ("is_favorite", .bool true), ("user", Json.null)],
        flashes := [],
        sess := ⟨some (Json.str "t"), none⟩ } :=
  ((book_detail_is_favorite ⟨some (Json.str "t"), none⟩ 1
      (.response 200 (Json.obj [("id", Json.num 1), ("title", Json.str "A")]))
      (.response 200 (Json.arr [Json.obj [("id", Json.num 1)]]))
      (Json.obj [("id", Json.num 1), ("title", Json.str "A")])
      [Json.obj [("id", Json.num 1)]]
      (by decide) rfl (by decide)).2 rfl (by decide)).1

/-- C7: evaluation at the failing input.  A GET of the index page where the
upstream returns an empty book list renders the catalog with an empty list
and NO flash message — the error flash is produced only when `api_get`
returns the absent sentinel, contradicting the claim (and the repository's
own test, which expects a "No se pudo conectar" flash for the empty list). -/
theorem index_empty_list_behavior :
    index ⟨none, none⟩ (.response 200 (Json.arr [])) =
      { outcome := .render "index.html"
          [("books", Json.arr []), ("user", Json.null)],
        flashes := [],
        sess := ⟨none, none⟩ } := rfl

/-- C8: evaluation at the failing input.  A GET of `/favorites/` while
authenticated where the upstream returns an empty list (zero favorites)
renders the page with an empty list and NO flash — the "Error al cargar
favoritos." flash is produced only for the absent sentinel, contradicting
the claim (and the repository's own test, which expects the error flash for
the empty list). -/
theorem favorites_empty_list_behavior :
    favorites_view ⟨some (Json.str "tok"), none⟩
        (.response 200 (Json.arr [])) =
      { outcome := .render "favorites.html"
          [("books", Json.arr []), ("user", Json.null)],
        flashes := [],
        sess := ⟨some (Json.str "tok"), none⟩ } := rfl

/-- C9: a POST to `/book/{id}/favorite/` while authenticated flashes the
server-supplied `message` (falling back to "Acción realizada") exactly when
the upstream status is 200 or 201; an absent response or any other status
flashes the generic failure message; every case redirects to
`book_detail(id)` (response bodies are taken to be JSON objects, the only
shape on which the success branch's `data.get` does not raise). -/
theorem toggle_favorite_behavior (sess : Session) (bid : Nat)
    (postOut : PostOutcome) (hAuth : truthyAuth sess = true) :
    (api_post postOut = none →
        toggle_favorite sess bid postOut =
          { outcome := .redirect "book_detail" [bid],
            flashes := [⟨"error", "No se pudo actualizar favoritos."⟩],
            sess := sess })
    ∧ (∀ (r : Response) (kvs : List (String × Json)),
        api_post postOut = some r → r.body = Json.obj kvs →
        toggle_favorite sess bid postOut =
          if r.status = 200 ∨ r.status = 201 then
            { outcome := .redirect "book_detail" [bid],
              flashes := [⟨"success",
                pyStr ((List.lookup "message" kvs).getD
                  (.str "Acción realizada"))⟩],
              sess := sess }
          else
            { outcome := .redirect "book_detail" [bid],
              flashes := [⟨"error", "No se pudo actualizar favoritos."⟩],
              sess := sess }) := by
  constructor
  · intro hNone
    cases postOut with
    | transportFail => simp [toggle_favorite, hAuth, api_post]
    | response r0 => simp [api_post] at hNone
  · intro r kvs hResp hBody
    cases postOut with
    | transportFail => simp [api_post] at hResp
    | response r0 =>
        simp only [api_post, Option.some.injEq] at hResp
        subst hResp
        by_cases hS : r0.status = 200 ∨ r0.status = 201
        · rcases hS with h | h <;>
            simp [toggle_favorite, hAuth, api_post, hBody, pyTruthyResp, h]
        · push_neg at hS
          simp [toggle_favorite, hAuth, api_post, hBody, pyTruthyResp,
            hS.1, hS.2]

/-- Concrete instance of `toggle_favorite_behavior`. -/
theorem toggle_favorite_behavior_witness :
    toggle_favorite ⟨some (Json.str "t"), none⟩ 5
        (.response ⟨200, Json.obj [("message", Json.str "Agregado")]⟩) =
      { outcome := .redirect "book_detail" [5],
        flashes := [⟨"success", "Agregado"⟩],
        sess := ⟨some (Json.str "t"), none⟩ } := by
  have h := (toggle_favorite_behavior ⟨some (Json.str "t"), none⟩ 5
      (.response ⟨200, Json.obj [("message", Json.str "Agregado")]⟩)
      (by decide)).2
      ⟨200, Json.obj [("message", Json.str "Agregado")]⟩
      [("message", Json.str "Agregado")] rfl rfl
  rw [if_pos (Or.inl rfl)] at h
  exact h

/-- C10: concrete run in which the favorites list fetched by `book_detail`
contains an element without an `id` key: the unguarded `f['id']` access
raises an uncaught `KeyError`, so the handler resolves to an exception
instead of a rendered page. -/
theorem book_detail_missing_id_raises :
    book_detail ⟨some (Json.str "t"), none⟩ 1
        (.response 200 (Json.obj [("id", Json.num 1), ("title", Json.str "A")]))
        (.response 200 (Json.arr [Json.obj [("title", Json.str "B")]])) =
      { outcome := .raise, flashes := [],
        sess := ⟨some (Json.str "t"), none⟩ } := rfl

end Eco
